import Mathlib

/-!
# Verification of the spenditure expense-tracker computation layer

Shallow embedding of the pure computational core of `src/App.tsx`:
the Salary Calculator (`calculateSalary`, lines 1829–1876), the Dashboard
forecast loop (`Dashboard`, lines 518–528), the salary-snapshot net cash
flow (`App`, lines 2831–2866), the calendar period filters of the Incomes
and Expenses pages (lines 987–1031 and 1368–1412, two identical blocks),
and the CSV exporter (`convertToCSV` / `handleDownloadCSV`,
lines 2485–2600).

Modelling conventions:
* JavaScript numbers are idealised as exact rationals (`ℚ`); IEEE-754
  rounding is below the abstraction level of the specification, which
  itself states the arithmetic over the reals.
* The result of `parseFloat(String(x))` is modelled as an `Option ℚ`:
  `none` is `NaN` (an unparsable or missing value), `some q` a successful
  parse.  The ubiquitous source pattern `parseFloat(String(x)) || 0` is
  then `parseNum`, which maps `none` (and `0`, a fixed point) to `0`.
* Instants (JavaScript `Date` values and Firestore timestamps converted
  by `toDate()`) are milliseconds since the Unix epoch (`ℤ`), with the
  local time zone modelled at a fixed zero offset; `getDay`,
  `getFullYear`, `getMonth`, `getDate` and the `new Date(y, m, d)`
  constructor are modelled by explicit Gregorian-calendar arithmetic.
-/

/-- Model of `parseFloat(String(x)) || 0`: an unparsable value (`none`, i.e. `NaN`)
is coerced to `0`; a parsed `0` is also mapped to `0` by `||`, which is
the identity on our model. -/
def parseNum (v : Option ℚ) : ℚ := v.getD 0

/-- The `frequency` field of `SalaryDetails`: `'Weekly' | 'Fortnightly' | 'Monthly'`. -/
inductive Frequency where
  | weekly
  | fortnightly
  | monthly
deriving DecidableEq

/-- The `dayOffInMonth` field of `SalaryDetails`: the string union `'1' | '2'`. -/
inductive DayOff where
  | one
  | two
deriving DecidableEq

/-- Result record of `calculateSalary` (the three `setX` calls at
lines 1861, 1871 and 1875 of `App.tsx`). -/
structure SalaryResult where
  monthlyIncome : ℚ
  dailyIncome : ℚ
  totalDeductions : ℚ
deriving DecidableEq

/-- The `workdaysInMonth` computation of `calculateSalary`
(`App.tsx` lines 1863–1868): initialised to `22`, set to `26` when
`dayOffInMonth === '1'`, to `22` when `'2'`; the trailing `22` is the
initial value, kept for fidelity although the two branches are exhaustive. -/
def workdaysInMonth (d : DayOff) : ℚ :=
  if d = DayOff.one then 26 else if d = DayOff.two then 22 else 22

/-- Model of `calculateSalary` (`App.tsx` lines 1829–1876).  Every numeric input
arrives as `string | number` and is put through `parseFloat(String(·)) || 0`. -/
def calculateSalary (currentSalary : Option ℚ) (currentFrequency : Frequency)
    (currentDayOffInMonth : DayOff)
    (currentSss currentPhilhealth currentPagibig currentTax currentLoans
      currentVoluntary : Option ℚ) : SalaryResult :=
  let parsedSalary := parseNum currentSalary
  let parsedSss := parseNum currentSss
  let parsedPhilhealth := parseNum currentPhilhealth
  let parsedPagibig := parseNum currentPagibig
  let parsedTax := parseNum currentTax
  let parsedLoans := parseNum currentLoans
  let parsedVoluntary := parseNum currentVoluntary
  let calculatedMonthlyIncome : ℚ :=
    match currentFrequency with
    | Frequency.weekly => parsedSalary * (365 / 7 / 12)
    | Frequency.fortnightly => parsedSalary * (365 / 14 / 12)
    | Frequency.monthly => parsedSalary
  let w := workdaysInMonth currentDayOffInMonth
  let calculatedDailyIncome : ℚ := if w > 0 then calculatedMonthlyIncome / w else 0
  let calculatedTotalDeductions :=
    parsedSss + parsedPhilhealth + parsedPagibig + parsedTax + parsedLoans +
      parsedVoluntary
  ⟨calculatedMonthlyIncome, calculatedDailyIncome, calculatedTotalDeductions⟩

/-- Model of `parseFloat(x.toFixed(2))` under the rational idealisation:
`Number.prototype.toFixed(2)` picks the integer `n` minimising
`|n/100 − |x||` (ties to the larger `n`) and prefixes the sign, so the
re-parsed value is `sign(x) · ⌊100·|x| + 1/2⌋ / 100`. -/
def round2 (x : ℚ) : ℚ :=
  if 0 ≤ x then (⌊100 * x + 1 / 2⌋ : ℚ) / 100
  else -((⌊100 * (-x) + 1 / 2⌋ : ℚ) / 100)

/-- The `for (let i = 1; i <= 6; i++)` loop of `Dashboard`
(`App.tsx` lines 522–528): `n` iterations remaining, `cur` the running
`currentProjectedBalance` (kept unrounded), `net` the `monthlyNetCashFlow`;
each pushed point is `parseFloat(currentProjectedBalance.toFixed(2))`. -/
def forecastLoop : ℕ → ℚ → ℚ → List ℚ
  | 0, _, _ => []
  | n + 1, cur, net =>
      let cur2 := cur + net
      round2 cur2 :: forecastLoop n cur2 net

/-- The `Balance` values of `forecastData` built by `Dashboard`
(`App.tsx` lines 518–528): the initial point
`parseFloat(totalBankBalance.toFixed(2))` followed by six loop iterations. -/
def forecastData (totalBankBalance monthlyNetCashFlow : ℚ) : List ℚ :=
  round2 totalBankBalance :: forecastLoop 6 totalBankBalance monthlyNetCashFlow

/-- Closed form of the forecast loop: the `k`-th pushed point (for
`k < n`) is the exact running balance `cur + (k+1)·net`, rounded for
display only — the accumulator itself is never rounded. -/
lemma forecastLoop_closed (net : ℚ) (n : ℕ) : ∀ cur : ℚ,
    forecastLoop n cur net =
      (List.range n).map fun (i : ℕ) => round2 (cur + ((i : ℚ) + 1) * net) := by
  induction n with
  | zero => intro cur; simp [forecastLoop]
  | succ n ih =>
      intro cur
      rw [List.range_succ_eq_map]
      simp only [forecastLoop, List.map_cons, List.map_map]
      refine congrArg₂ List.cons (by norm_num) ?_
      rw [ih (cur + net)]
      refine List.map_congr_left fun i _ => ?_
      refine congrArg round2 ?_
      push_cast
      ring

lemma range_six : List.range 6 = [0, 1, 2, 3, 4, 5] := rfl

lemma range_seven : List.range 7 = [0, 1, 2, 3, 4, 5, 6] := rfl

example : forecastData 1000 500 = [1000, 1500, 2000, 2500, 3000, 3500, 4000] := by
  rw [forecastData, forecastLoop_closed, range_six]
  norm_num [round2]

/-- C1 (counterexample): the claimed recurrence
`forecast[i] = round2 (forecast[i−1] + monthlyNetCashFlow)` — rounding fed
back into the next step — fails on the code at
`totalBankBalance = monthlyNetCashFlow = 0.004`: the code's point 1 is
`round2 0.008 = 0.01`, while the claim's recurrence gives
`round2 (round2 0.004 + 0.004) = round2 0.004 = 0`. -/
theorem forecast_per_step_rounding_counterexample :
    (forecastData (1 / 250) (1 / 250)).getD 1 0 ≠
      round2 ((forecastData (1 / 250) (1 / 250)).getD 0 0 + 1 / 250) := by
  rw [forecastData, forecastLoop_closed, range_six]
  norm_num [round2]

/-- C1 (amended): the dashboard forecast is a 7-point sequence whose
`i`-th point is the exact running balance
`totalBankBalance + i·monthlyNetCashFlow` rounded to 2 decimal places;
the accumulator is kept unrounded between steps, and rounding is applied
to each displayed point independently (never fed back into the
recurrence).  In particular point 0 is `totalBankBalance` rounded to
2 decimal places. -/
theorem forecast_is_rounded_linear_sequence (totalBankBalance monthlyNetCashFlow : ℚ) :
    forecastData totalBankBalance monthlyNetCashFlow =
      (List.range 7).map fun (i : ℕ) =>
        round2 (totalBankBalance + (i : ℚ) * monthlyNetCashFlow) := by
  rw [forecastData, forecastLoop_closed, range_six, range_seven]
  simp only [List.map_cons, List.map_nil]
  push_cast
  ring_nf

/-- C2: `monthlyIncome` of `calculateSalary` is the gross pay when the
frequency is Monthly, `gross × 365/7/12` when Weekly and
`gross × 365/14/12` when Fortnightly, an unparsable or missing gross
(`none`) being treated as `0`; the deduction fields and the days-off
selector play no role. -/
theorem calculateSalary_monthlyIncome_spec (gross : Option ℚ) (freq : Frequency)
    (d : DayOff) (sss philhealth pagibig tax loans voluntary : Option ℚ) :
    (calculateSalary gross freq d sss philhealth pagibig tax loans
        voluntary).monthlyIncome =
      match freq with
      | Frequency.monthly => gross.getD 0
      | Frequency.weekly => gross.getD 0 * (365 / 7 / 12)
      | Frequency.fortnightly => gross.getD 0 * (365 / 14 / 12) := by
  cases freq <;> rfl

/-- C3: `workdaysInMonth` is `26` for one day off per week and `22` for
two; both constants are strictly positive, so the `workdaysInMonth > 0`
guard always takes its division branch and `dailyIncome` equals
`monthlyIncome / workdaysInMonth` unconditionally on the `'1' | '2'`
input domain. -/
theorem calculateSalary_dailyIncome_guard_unreachable :
    (workdaysInMonth DayOff.one = 26 ∧ workdaysInMonth DayOff.two = 22) ∧
    (∀ d : DayOff, 0 < workdaysInMonth d) ∧
    ∀ (gross : Option ℚ) (freq : Frequency) (d : DayOff)
      (sss philhealth pagibig tax loans voluntary : Option ℚ),
      (calculateSalary gross freq d sss philhealth pagibig tax loans
          voluntary).dailyIncome =
        (calculateSalary gross freq d sss philhealth pagibig tax loans
            voluntary).monthlyIncome / workdaysInMonth d := by
  have h1 : workdaysInMonth DayOff.one = 26 := rfl
  have h2 : workdaysInMonth DayOff.two = 22 := rfl
  have hpos : ∀ d : DayOff, (0 : ℚ) < workdaysInMonth d := by
    intro d; cases d <;> [rw [h1]; rw [h2]] <;> norm_num
  refine ⟨⟨h1, h2⟩, hpos, ?_⟩
  intro gross freq d sss philhealth pagibig tax loans voluntary
  simp only [calculateSalary, if_pos (hpos d)]

/-- C10: a noninterference property of `calculateSalary`.
`monthlyIncome` and `dailyIncome` are unchanged when only the six
deduction fields change, and `totalDeductions` is unchanged when only
gross pay, frequency and the days-off selector change. -/
theorem calculateSalary_noninterference
    (gross gross' : Option ℚ) (freq freq' : Frequency) (d d' : DayOff)
    (s1 s2 s3 s4 s5 s6 t1 t2 t3 t4 t5 t6 : Option ℚ) :
    ((calculateSalary gross freq d s1 s2 s3 s4 s5 s6).monthlyIncome =
        (calculateSalary gross freq d t1 t2 t3 t4 t5 t6).monthlyIncome ∧
      (calculateSalary gross freq d s1 s2 s3 s4 s5 s6).dailyIncome =
        (calculateSalary gross freq d t1 t2 t3 t4 t5 t6).dailyIncome) ∧
    (calculateSalary gross freq d s1 s2 s3 s4 s5 s6).totalDeductions =
      (calculateSalary gross' freq' d' s1 s2 s3 s4 s5 s6).totalDeductions := by
  refine ⟨⟨rfl, rfl⟩, rfl⟩


/-! ## Calendar model and the period filters

The period filters (Incomes page, `App.tsx` lines 987–1031, and the
byte-identical block of the Expenses page, lines 1368–1412) compare the
calendar projections of each entry's date against those of `new Date()`
(the reference instant) and, for the week filter, against two instants
built with the `new Date(year, month, day)` constructor.

Instants are milliseconds since the Unix epoch; the local time zone is
modelled at a fixed zero offset.  Within a day there are `86400000`
milliseconds, and day `0` (1970-01-01) was a Thursday, so JavaScript's
`getDay` is `(days + 4) mod 7`. -/

def msPerDay : ℤ := 86400000

/-- Gregorian leap-year test. -/
def isLeap (y : ℤ) : Bool := (y % 4 == 0 && y % 100 != 0) || (y % 400 == 0)

/-- Number of leap years in the range `(-∞, y)` relative to a fixed
origin: `⌊(y−1)/4⌋ − ⌊(y−1)/100⌋ + ⌊(y−1)/400⌋` (floor division). -/
def leapsBefore (y : ℤ) : ℤ :=
  (y - 1) / 4 - (y - 1) / 100 + (y - 1) / 400

/-- Days from the start of year `y` to the first of month `m`
(`m` zero-based, `0 ≤ m ≤ 11`). -/
def monthOffset (leap : Bool) (m : ℤ) : ℤ :=
  let base :=
    if m ≤ 0 then 0 else if m = 1 then 31 else if m = 2 then 59
    else if m = 3 then 90 else if m = 4 then 120 else if m = 5 then 151
    else if m = 6 then 181 else if m = 7 then 212 else if m = 8 then 243
    else if m = 9 then 273 else if m = 10 then 304 else 334
  base + (if leap && m ≥ 2 then 1 else 0)

/-- Epoch day number of the first of month `m` (zero-based, in range)
of year `y`: `leapsBefore 1970 = 477`. -/
def daysToMonthStart (y m : ℤ) : ℤ :=
  365 * (y - 1970) + (leapsBefore y - 477) + monthOffset (isLeap y) m

/-- ECMAScript `MakeDay(y, m, d)`: the month is first normalised into
`[0, 11]` carrying whole years, then the (1-based, arbitrary) day count
is added as a plain offset from the first of the month — this is the
out-of-range-argument normalisation of the `Date` constructor. -/
def daysFromCivil (y m d : ℤ) : ℤ :=
  let ym := y + m / 12
  let mn := m % 12
  daysToMonthStart ym mn + (d - 1)

/-- ECMAScript `MakeFullYear`: a constructor year argument between 0 and
99 means 1900–1999. -/
def adjustYear (y : ℤ) : ℤ := if 0 ≤ y ∧ y ≤ 99 then y + 1900 else y

/-- Model of `new Date(y, m, d).getTime()` at local midnight (zero-offset zone). -/
def mkDate (y m d : ℤ) : ℤ := msPerDay * daysFromCivil (adjustYear y) m d

/-- Hinnant's `civil_from_days`: epoch day number to
`(year, month (zero-based), day-of-month)`; all divisions act on
non-negative operands. -/
def civilFromDays (z0 : ℤ) : ℤ × ℤ × ℤ :=
  let z := z0 + 719468
  let era := z / 146097
  let doe := z - era * 146097
  let yoe := (doe - doe / 1460 + doe / 36524 - doe / 146096) / 365
  let y := yoe + era * 400
  let doy := doe - (365 * yoe + yoe / 4 - yoe / 100)
  let mp := (5 * doy + 2) / 153
  let d := doy - (153 * mp + 2) / 5 + 1
  let m := mp + (if mp < 10 then 3 else -9)
  (if m ≤ 2 then y + 1 else y, m - 1, d)

/-- Model of `Date.prototype.getFullYear` of an epoch-milliseconds instant. -/
def getFullYear (t : ℤ) : ℤ := (civilFromDays (t / msPerDay)).1

/-- Model of `Date.prototype.getMonth` (zero-based). -/
def getMonth (t : ℤ) : ℤ := (civilFromDays (t / msPerDay)).2.1

/-- Model of `Date.prototype.getDate` (day of month, 1-based). -/
def getDate (t : ℤ) : ℤ := (civilFromDays (t / msPerDay)).2.2

/-- Model of `Date.prototype.getDay` (weekday, `0` = Sunday). -/
def getDay (t : ℤ) : ℤ := (t / msPerDay + 4) % 7

example : daysToMonthStart 1970 0 = 0 := by decide
example : daysToMonthStart 2024 2 = 19783 := by decide
example : civilFromDays 0 = (1970, 0, 1) := by decide
example : civilFromDays 19783 = (2024, 2, 1) := by decide
example : civilFromDays 11016 = (2000, 1, 29) := by decide
example : daysFromCivil 2000 1 29 = 11016 := by decide
example : getDay 0 = 4 := by decide

/-- The observable state of the reference instant `const now = new Date()`
read by the period filters: `getFullYear`, `getMonth`, `getDate`,
`getDay` and the instant itself (`getTime`, used implicitly by the `>=`
and `<` comparisons). -/
structure JSDate where
  year : ℤ
  month : ℤ
  date : ℤ
  day : ℤ
  ms : ℤ

/-- Consistency of the projections of a real JavaScript `Date`: the
civil fields name the calendar day the instant falls on, and the weekday
field agrees with the day number.  (`Int.ediv` by the positive `msPerDay`
is floor division, hence start-of-day.) -/
def JSDate.WF (d : JSDate) : Prop :=
  daysFromCivil d.year d.month d.date = d.ms / msPerDay ∧
    d.day = (d.ms / msPerDay + 4) % 7

instance (d : JSDate) : Decidable d.WF := by unfold JSDate.WF; infer_instance

/-- The `filterPeriod` selector (`'day' | 'week' | 'month' | 'year' | 'all'`). -/
inductive Period where
  | day
  | week
  | month
  | year
  | all
deriving DecidableEq

/-- The period-filter `useEffect` body shared by the Incomes page
(`App.tsx` lines 987–1031) and the Expenses page (lines 1368–1412); the
two blocks are identical up to the record field names, abstracted here by
`dateOf` (an entry's date in epoch ms, `none` for a null date, which is
rejected by the `if (!entryDate) return false` guard). -/
def periodFilter {α : Type} (filterPeriod : Period) (now : JSDate)
    (dateOf : α → Option ℤ) (entries : List α) : List α :=
  match filterPeriod with
  | Period.day =>
      entries.filter fun entry =>
        match dateOf entry with
        | none => false
        | some t =>
            decide (getDate t = now.date ∧ getMonth t = now.month ∧
              getFullYear t = now.year)
  | Period.week =>
      let startOfWeek := mkDate now.year now.month (now.date - now.day)
      let endOfWeek := mkDate now.year now.month (now.date + (6 - now.day) + 1)
      entries.filter fun entry =>
        match dateOf entry with
        | none => false
        | some t => decide (startOfWeek ≤ t ∧ t < endOfWeek)
  | Period.month =>
      entries.filter fun entry =>
        match dateOf entry with
        | none => false
        | some t => decide (getMonth t = now.month ∧ getFullYear t = now.year)
  | Period.year =>
      entries.filter fun entry =>
        match dateOf entry with
        | none => false
        | some t => decide (getFullYear t = now.year)
  | Period.all => entries

/-- The running total over the filtered list:
`filtered.reduce((sum, entry) => sum + (parseFloat(String(amount)) || 0), 0)`. -/
def filteredTotal {α : Type} (amountOf : α → Option ℚ) (filtered : List α) : ℚ :=
  filtered.foldl (fun sum entry => sum + parseNum (amountOf entry)) 0

/-- The pair the filter effect stores (`setFilteredX`/`setTotalFilteredX`). -/
def periodFilterWithTotal {α : Type} (filterPeriod : Period) (now : JSDate)
    (dateOf : α → Option ℤ) (amountOf : α → Option ℚ) (entries : List α) :
    List α × ℚ :=
  let filtered := periodFilter filterPeriod now dateOf entries
  (filtered, filteredTotal amountOf filtered)

lemma foldl_add_parseNum {α : Type} (amountOf : α → Option ℚ) (l : List α) :
    ∀ acc : ℚ,
      l.foldl (fun sum entry => sum + parseNum (amountOf entry)) acc =
        acc + (l.map fun entry => parseNum (amountOf entry)).sum := by
  induction l with
  | nil => intro acc; simp
  | cons x xs ih =>
      intro acc
      rw [List.foldl_cons, ih, List.map_cons, List.sum_cons]
      ring

/-- C8: with `period = 'all'` the filter is the identity, and the
computed sum is the arithmetic total of the (parsed) amount fields over
the whole input, unparsable or missing amounts contributing `0`. -/
theorem allFilter_identity_and_total {α : Type} (now : JSDate)
    (dateOf : α → Option ℤ) (amountOf : α → Option ℚ) (entries : List α) :
    periodFilterWithTotal Period.all now dateOf amountOf entries =
      (entries, (entries.map fun entry => parseNum (amountOf entry)).sum) := by
  simp only [periodFilterWithTotal, periodFilter, filteredTotal]
  rw [foldl_add_parseNum, zero_add]

/-- C9: with a common reference instant, the day-filtered list is a
sublist of the month-filtered list, which is a sublist of the
year-filtered list, which is a sublist of the input; and every period
filter returns an order-preserving sublist of its input. -/
theorem period_filters_sublist_chain {α : Type} (now : JSDate)
    (dateOf : α → Option ℤ) (entries : List α) :
    List.Sublist (periodFilter Period.day now dateOf entries)
        (periodFilter Period.month now dateOf entries) ∧
      List.Sublist (periodFilter Period.month now dateOf entries)
        (periodFilter Period.year now dateOf entries) ∧
      List.Sublist (periodFilter Period.year now dateOf entries) entries ∧
      ∀ p : Period, List.Sublist (periodFilter p now dateOf entries) entries := by
  refine ⟨?_, ?_, ?_, ?_⟩
  · simp only [periodFilter]
    refine List.monotone_filter_right _ fun a ha => ?_
    cases h : dateOf a with
    | none => simp [h] at ha
    | some t =>
        simp only [h, decide_eq_true_eq] at ha ⊢
        exact ⟨ha.2.1, ha.2.2⟩
  · simp only [periodFilter]
    refine List.monotone_filter_right _ fun a ha => ?_
    cases h : dateOf a with
    | none => simp [h] at ha
    | some t =>
        simp only [h, decide_eq_true_eq] at ha ⊢
        exact ha.2
  · simp only [periodFilter]
    exact List.filter_sublist _
  · intro p
    cases p <;> simp only [periodFilter] <;>
      first
        | exact List.filter_sublist _
        | exact List.Sublist.refl _

/-- Following the claim's words, the start of the reference instant's
week: its calendar date (start of its civil day) minus its weekday
offset in days. -/
def sundayStart (now : JSDate) : ℤ :=
  msPerDay * (now.ms / msPerDay) - now.day * msPerDay

/-- C4: the week filter selects exactly the entries whose date lies in
the half-open window `[sundayStart, sundayStart + 7 days)`, where
`sundayStart` is obtained by subtracting the reference instant's weekday
offset from its calendar date; that instant is a Sunday midnight
(weekday `0`, no time-of-day component) and the reference instant lies
inside the window.  The hypothesis `100 ≤ now.year` keeps the `Date`
constructor's two-digit-year remapping (years 0–99 ↦ 1900–1999) out of
play; `now.WF` says the reference instant's calendar projections are
those of a real JavaScript `Date`. -/
theorem weekFilter_selects_sunday_window {α : Type} (dateOf : α → Option ℤ)
    (entries : List α) (now : JSDate) (hwf : now.WF) (hy : 100 ≤ now.year) :
    periodFilter Period.week now dateOf entries =
        entries.filter (fun entry =>
          match dateOf entry with
          | none => false
          | some t => decide (sundayStart now ≤ t ∧ t < sundayStart now + 7 * msPerDay)) ∧
      sundayStart now % msPerDay = 0 ∧
      getDay (sundayStart now) = 0 ∧
      sundayStart now ≤ now.ms ∧ now.ms < sundayStart now + 7 * msPerDay := by
  obtain ⟨h1, h2⟩ := hwf
  have hadj : adjustYear now.year = now.year := by
    unfold adjustYear
    rw [if_neg]
    omega
  simp only [daysFromCivil] at h1
  have hs : mkDate now.year now.month (now.date - now.day) = sundayStart now := by
    simp only [mkDate, daysFromCivil, sundayStart, hadj]
    simp only [msPerDay] at h1 ⊢
    omega
  have he : mkDate now.year now.month (now.date + (6 - now.day) + 1) =
      sundayStart now + 7 * msPerDay := by
    simp only [mkDate, daysFromCivil, sundayStart, hadj]
    simp only [msPerDay] at h1 ⊢
    omega
  refine ⟨?_, ?_, ?_, ?_, ?_⟩
  · simp only [periodFilter, hs, he]
  · simp only [sundayStart, msPerDay]
    omega
  · simp only [getDay, sundayStart, msPerDay] at h2 ⊢
    omega
  · simp only [sundayStart, msPerDay] at h2 ⊢
    omega
  · simp only [sundayStart, msPerDay] at h2 ⊢
    omega

/-! ## Dashboard net cash flow (the salary snapshot handler) -/

/-- The `SalaryDetails` document as read by the dashboard's salary
`onSnapshot` handler (`App.tsx` lines 2831–2866): each numeric field is
the parse result of `parseFloat(String(·))` (`none` = `NaN`), the
frequency the three-valued union (the handler's `switch` treats any
other value like `'Monthly'` via its `default` arm, which our
three-constructor type makes unreachable). -/
structure SalaryRecord where
  salary : Option ℚ
  frequency : Frequency
  dayOffInMonth : DayOff
  sss : Option ℚ
  philhealth : Option ℚ
  pagibig : Option ℚ
  tax : Option ℚ
  loans : Option ℚ
  voluntary : Option ℚ

/-- The `monthlyNetCashFlow` value set by the salary `onSnapshot`
handler (`App.tsx` lines 2831–2866): `none` models a non-existent
snapshot (`!docSnap.exists()`), in which case the handler stores `0`. -/
def appMonthlyNetCashFlow (snap : Option SalaryRecord) : ℚ :=
  match snap with
  | none => 0
  | some data =>
      let grossSalary := parseNum data.salary
      let sss := parseNum data.sss
      let philhealth := parseNum data.philhealth
      let pagibig := parseNum data.pagibig
      let tax := parseNum data.tax
      let loans := parseNum data.loans
      let voluntary := parseNum data.voluntary
      let estimatedMonthlyGross : ℚ :=
        match data.frequency with
        | Frequency.weekly => grossSalary * (365 / 7 / 12)
        | Frequency.fortnightly => grossSalary * (365 / 14 / 12)
        | Frequency.monthly => grossSalary
      let totalFixedDeductions :=
        sss + philhealth + pagibig + tax + loans + voluntary
      estimatedMonthlyGross - totalFixedDeductions

/-- C5: when a salary record exists the dashboard's `monthlyNetCashFlow`
is exactly the Salary Calculator's `monthlyIncome` minus its
`totalDeductions` (the sum of the six deduction fields, unparsable
values treated as `0`) on the same record, and it is `0` when no salary
record exists. -/
theorem monthlyNetCashFlow_matches_calculator :
    (∀ data : SalaryRecord,
        appMonthlyNetCashFlow (some data) =
          (calculateSalary data.salary data.frequency data.dayOffInMonth
                data.sss data.philhealth data.pagibig data.tax data.loans
                data.voluntary).monthlyIncome -
            (calculateSalary data.salary data.frequency data.dayOffInMonth
                data.sss data.philhealth data.pagibig data.tax data.loans
                data.voluntary).totalDeductions) ∧
      appMonthlyNetCashFlow none = 0 := by
  refine ⟨fun data => ?_, rfl⟩
  cases data
  rfl

/-! ## CSV export

`convertToCSV` (`App.tsx` lines 2485–2541) and the pure content/file
part of `handleDownloadCSV` (lines 2543–2600).  Record fields are
modelled as the strings they are rendered to: `String(field)` for ids,
names and numbers, `toLocaleDateString()` for dates (locale-dependent,
below the abstraction level of the claims, which only concern row and
quoting structure).  The salary row's `salaryData.x || 0` fallbacks are
likewise already folded into the modelled field strings. -/

/-- An `ExpenseEntry` as consumed by `convertToCSV`, fields pre-rendered
to strings. -/
structure CsvExpense where
  id : String
  name : String
  category : String
  expenseAmount : String
  expenseDate : String
  createdAt : String
deriving DecidableEq

/-- An `IncomeEntry` as consumed by `convertToCSV`, fields pre-rendered
to strings. -/
structure CsvIncome where
  id : String
  businessName : String
  industry : String
  incomeAmount : String
  incomeDate : String
  createdAt : String
deriving DecidableEq

/-- A `SalaryDetails` document as consumed by `convertToCSV`, fields
pre-rendered to strings. -/
structure CsvSalary where
  salary : String
  frequency : String
  paydaySpecific : String
  dayOffInMonth : String
  sss : String
  philhealth : String
  pagibig : String
  tax : String
  loans : String
  voluntary : String
  lastUpdated : String
deriving DecidableEq

/-- The `(data, type)` argument pair of `convertToCSV`; for the
`'salary'` type the data is a single document, `none` when absent
(the `if (salaryData)` guard). -/
inductive CsvInput where
  | expenses : List CsvExpense → CsvInput
  | incomes : List CsvIncome → CsvInput
  | salary : Option CsvSalary → CsvInput
deriving DecidableEq

/-- Model of the escape `String(field).replace` with a global double-quote
regex: every double-quote character is
doubled (a global single-character regex replace). -/
def jsReplaceQuotes (s : String) : String :=
  String.mk (s.data.flatMap fun c => if c = '\"' then ['\"', '\"'] else [c])

/-- The `csvRows` array built by `convertToCSV`
(`App.tsx` lines 2486–2539): a joined header row, then per record a row
of fields each escaped by `"${String(field).replace(/"/g, '""')}"` and
joined with commas. -/
def convertToCSVRows (input : CsvInput) : List String :=
  match input with
  | CsvInput.expenses data =>
      String.intercalate "," ["ID", "Name", "Category", "Amount", "Date", "Added On"] ::
        data.map fun item =>
          String.intercalate ","
            ([item.id, item.name, item.category, item.expenseAmount,
                item.expenseDate, item.createdAt].map fun field =>
              "\"" ++ jsReplaceQuotes field ++ "\"")
  | CsvInput.incomes data =>
      String.intercalate ","
          ["ID", "Business Name", "Industry", "Amount", "Date Received", "Added On"] ::
        data.map fun item =>
          String.intercalate ","
            ([item.id, item.businessName, item.industry, item.incomeAmount,
                item.incomeDate, item.createdAt].map fun field =>
              "\"" ++ jsReplaceQuotes field ++ "\"")
  | CsvInput.salary salaryData =>
      String.intercalate ","
          ["Gross Salary", "Frequency", "Payday", "Days Off Per Week",
            "SSS Deduction", "Philhealth Deduction", "Pag-ibig Deduction",
            "Tax Deduction", "Loans Deduction", "Voluntary Deduction",
            "Last Updated"] ::
        match salaryData with
        | none => []
        | some s =>
            [String.intercalate ","
              ([s.salary, s.frequency, s.paydaySpecific, s.dayOffInMonth,
                  s.sss, s.philhealth, s.pagibig, s.tax, s.loans, s.voluntary,
                  s.lastUpdated].map fun field =>
                "\"" ++ jsReplaceQuotes field ++ "\"")]

/-- Model of `convertToCSV` (`App.tsx` line 2540): `csvRows.join('\n')`. -/
def convertToCSV (input : CsvInput) : String :=
  String.intercalate "\n" (convertToCSVRows input)

/-- Claim-side: wrap a field in double quotes. -/
def quoteWrap (s : String) : String := "\"" ++ s ++ "\""

/-- Claim-side: double every internal double quote of a field. -/
def doubleInternalQuotes (s : String) : String :=
  String.mk (s.data.flatMap fun c => if c = '\"' then ['\"', '\"'] else [c])

/-- Claim-side: the comma-separated header row of each collection type. -/
def csvHeaderRow (input : CsvInput) : String :=
  match input with
  | CsvInput.expenses _ =>
      String.intercalate "," ["ID", "Name", "Category", "Amount", "Date", "Added On"]
  | CsvInput.incomes _ =>
      String.intercalate ","
        ["ID", "Business Name", "Industry", "Amount", "Date Received", "Added On"]
  | CsvInput.salary _ =>
      String.intercalate ","
        ["Gross Salary", "Frequency", "Payday", "Days Off Per Week",
          "SSS Deduction", "Philhealth Deduction", "Pag-ibig Deduction",
          "Tax Deduction", "Loans Deduction", "Voluntary Deduction",
          "Last Updated"]

/-- Claim-side: the field lists of the records, one list per record. -/
def csvRecordFields (input : CsvInput) : List (List String) :=
  match input with
  | CsvInput.expenses data =>
      data.map fun item =>
        [item.id, item.name, item.category, item.expenseAmount,
          item.expenseDate, item.createdAt]
  | CsvInput.incomes data =>
      data.map fun item =>
        [item.id, item.businessName, item.industry, item.incomeAmount,
          item.incomeDate, item.createdAt]
  | CsvInput.salary none => []
  | CsvInput.salary (some s) =>
      [[s.salary, s.frequency, s.paydaySpecific, s.dayOffInMonth,
          s.sss, s.philhealth, s.pagibig, s.tax, s.loans, s.voluntary,
          s.lastUpdated]]

/-- Claim-side: one comma-separated row per record, every field
double-quote-wrapped with internal quotes doubled. -/
def csvSpecRecordRows (input : CsvInput) : List String :=
  (csvRecordFields input).map fun fields =>
    String.intercalate "," (fields.map fun f => quoteWrap (doubleInternalQuotes f))

/-- The number of records of a `convertToCSV` input. -/
def csvRecordCount (input : CsvInput) : ℕ :=
  match input with
  | CsvInput.expenses data => data.length
  | CsvInput.incomes data => data.length
  | CsvInput.salary none => 0
  | CsvInput.salary (some _) => 1

/-- C6: for every record collection and collection type, `convertToCSV`
produces the comma-separated header row followed by one comma-separated
row per record, in which every field is double-quote-wrapped with every
internal double quote doubled.  (Header labels are fixed plain strings,
joined unquoted, as in the source.) -/
theorem convertToCSV_row_structure (input : CsvInput) :
    convertToCSVRows input = csvHeaderRow input :: csvSpecRecordRows input ∧
      (csvSpecRecordRows input).length = csvRecordCount input ∧
      convertToCSV input =
        String.intercalate "\n" (csvHeaderRow input :: csvSpecRecordRows input) := by
  have hrows : convertToCSVRows input = csvHeaderRow input :: csvSpecRecordRows input := by
    cases input with
    | expenses data =>
        simp [convertToCSVRows, csvHeaderRow, csvSpecRecordRows, csvRecordFields,
          quoteWrap, doubleInternalQuotes, jsReplaceQuotes, List.map_map,
          Function.comp]
    | incomes data =>
        simp [convertToCSVRows, csvHeaderRow, csvSpecRecordRows, csvRecordFields,
          quoteWrap, doubleInternalQuotes, jsReplaceQuotes, List.map_map,
          Function.comp]
    | salary salaryData =>
        cases salaryData <;>
          simp [convertToCSVRows, csvHeaderRow, csvSpecRecordRows, csvRecordFields,
            quoteWrap, doubleInternalQuotes, jsReplaceQuotes]
  refine ⟨hrows, ?_, by rw [convertToCSV, hrows]⟩
  cases input with
  | expenses data => simp [csvSpecRecordRows, csvRecordFields, csvRecordCount]
  | incomes data => simp [csvSpecRecordRows, csvRecordFields, csvRecordCount]
  | salary salaryData =>
      cases salaryData <;> simp [csvSpecRecordRows, csvRecordFields, csvRecordCount]

/-- The `fullCSVContent` string assembled by `handleDownloadCSV`
(`App.tsx` lines 2548–2563): starting from `''`, each of the three
sections is appended only when its collection is non-empty (for salary:
when the record exists), as a plain-text header line, the section's CSV,
and a closing `'\n\n'`. -/
def fullCSVContent (expenses : List CsvExpense) (incomes : List CsvIncome)
    (salaryDetails : Option CsvSalary) : String :=
  let c0 := ""
  let c1 :=
    if expenses.length > 0 then
      c0 ++ ("--- Expenses ---\n" ++ convertToCSV (CsvInput.expenses expenses) ++ "\n\n")
    else c0
  let c2 :=
    if incomes.length > 0 then
      c1 ++ ("--- Incomes ---\n" ++ convertToCSV (CsvInput.incomes incomes) ++ "\n\n")
    else c1
  match salaryDetails with
  | some s =>
      c2 ++ ("--- Salary Details ---\n" ++ convertToCSV (CsvInput.salary (some s)) ++ "\n\n")
  | none => c2

/-- The download decision of `handleDownloadCSV`
(`App.tsx` lines 2565–2577): an empty `fullCSVContent` aborts with
"No data available to download." and produces no file; otherwise a file
named `expense_tracker_history.csv` with the assembled content is
offered for download. -/
def handleDownloadCSV (expenses : List CsvExpense) (incomes : List CsvIncome)
    (salaryDetails : Option CsvSalary) : Option (String × String) :=
  let content := fullCSVContent expenses incomes salaryDetails
  if content = "" then none else some ("expense_tracker_history.csv", content)

/-- Claim-side: the Expenses section, present only when expenses exist. -/
def expensesSection (expenses : List CsvExpense) : String :=
  if expenses = [] then ""
  else "--- Expenses ---\n" ++ convertToCSV (CsvInput.expenses expenses) ++ "\n\n"

/-- Claim-side: the Incomes section, present only when incomes exist. -/
def incomesSection (incomes : List CsvIncome) : String :=
  if incomes = [] then ""
  else "--- Incomes ---\n" ++ convertToCSV (CsvInput.incomes incomes) ++ "\n\n"

/-- Claim-side: the Salary Details section, present only when a salary
record exists. -/
def salarySection (salaryDetails : Option CsvSalary) : String :=
  match salaryDetails with
  | none => ""
  | some s =>
      "--- Salary Details ---\n" ++ convertToCSV (CsvInput.salary (some s)) ++ "\n\n"

/-- A sample income record used in the C7 counterexample. -/
def sampleIncome : CsvIncome :=
  ⟨"1", "Acme", "Retail", "100", "1/1/2024", "1/1/2024"⟩

set_option maxRecDepth 4000 in
/-- C7 (counterexample): with no expenses, one income and no salary
record, a file is downloaded but its content has no `--- Expenses ---`
section header anywhere, so the claim that every combination yields all
three labelled sections fails. -/
theorem downloadCSV_three_sections_counterexample :
    ¬ List.IsInfix "--- Expenses ---".data
        (fullCSVContent [] [sampleIncome] none).data := by decide

/-- C7 (amended): the downloaded CSV contains up to three labelled
sections — Expenses, Incomes, Salary Details — in that order, each
included exactly when its collection is non-empty (for salary: when the
record exists), each preceded by a plain-text section header line and
followed by a blank line; when all three are absent no file is produced
at all, and otherwise the file is named `expense_tracker_history.csv`. -/
theorem downloadCSV_sections_conditional (expenses : List CsvExpense)
    (incomes : List CsvIncome) (salaryDetails : Option CsvSalary) :
    fullCSVContent expenses incomes salaryDetails =
        expensesSection expenses ++ incomesSection incomes ++
          salarySection salaryDetails ∧
      handleDownloadCSV expenses incomes salaryDetails =
        (if expenses = [] ∧ incomes = [] ∧ salaryDetails = none then none
         else some ("expense_tracker_history.csv",
           fullCSVContent expenses incomes salaryDetails)) := by
  have hcontent : fullCSVContent expenses incomes salaryDetails =
      expensesSection expenses ++ incomesSection incomes ++
        salarySection salaryDetails := by
    cases expenses <;> cases incomes <;> cases salaryDetails <;>
      simp [fullCSVContent, expensesSection, incomesSection, salarySection,
        String.append_empty, String.empty_append, String.append_assoc]
  refine ⟨hcontent, ?_⟩
  have hexp : expenses ≠ [] → 0 < (expensesSection expenses).length := by
    intro hne
    rw [expensesSection, if_neg hne]
    simp only [String.length_append]
    have hl : 0 < ("--- Expenses ---\n").length := by decide
    omega
  have hinc : incomes ≠ [] → 0 < (incomesSection incomes).length := by
    intro hne
    rw [incomesSection, if_neg hne]
    simp only [String.length_append]
    have hl : 0 < ("--- Incomes ---\n").length := by decide
    omega
  have hsal : salaryDetails ≠ none → 0 < (salarySection salaryDetails).length := by
    cases salaryDetails with
    | none => intro hne; exact absurd rfl hne
    | some s =>
        intro _
        simp only [salarySection, String.length_append]
        have hl : 0 < ("--- Salary Details ---\n").length := by decide
        omega
  have hemptyiff : fullCSVContent expenses incomes salaryDetails = "" ↔
      (expenses = [] ∧ incomes = [] ∧ salaryDetails = none) := by
    constructor
    · intro h
      have hlen := congrArg String.length h
      rw [hcontent] at hlen
      simp only [String.length_append] at hlen
      have hz : ("" : String).length = 0 := rfl
      rw [hz] at hlen
      refine ⟨?_, ?_, ?_⟩
      · by_contra hne
        have := hexp hne
        omega
      · by_contra hne
        have := hinc hne
        omega
      · by_contra hne
        have := hsal hne
        omega
    · rintro ⟨h1, h2, h3⟩
      subst h1
      subst h2
      subst h3
      rfl
  simp only [handleDownloadCSV]
  by_cases hc : expenses = [] ∧ incomes = [] ∧ salaryDetails = none
  · rw [if_pos (hemptyiff.mpr hc), if_pos hc]
  · rw [if_neg fun h => hc (hemptyiff.mp h), if_neg hc]

/-- Witness for C4: the week-filter theorem applied at the concrete
reference instant 2024-03-05 12:00 (a Tuesday, epoch day 19787) and a
two-entry list, its two hypotheses discharged by computation. -/
theorem weekFilter_selects_sunday_window_witness :
    (JSDate.mk 2024 2 5 2 1709640000000).WF ∧
      (100 : ℤ) ≤ (JSDate.mk 2024 2 5 2 1709640000000).year ∧
      (periodFilter Period.week (JSDate.mk 2024 2 5 2 1709640000000)
            (fun t : ℤ => some t) [1709640000000, 0] =
          [(1709640000000 : ℤ), 0].filter (fun entry =>
            match some entry with
            | none => false
            | some t =>
                decide (sundayStart (JSDate.mk 2024 2 5 2 1709640000000) ≤ t ∧
                  t < sundayStart (JSDate.mk 2024 2 5 2 1709640000000) +
                    7 * msPerDay)) ∧
        sundayStart (JSDate.mk 2024 2 5 2 1709640000000) % msPerDay = 0 ∧
        getDay (sundayStart (JSDate.mk 2024 2 5 2 1709640000000)) = 0 ∧
        sundayStart (JSDate.mk 2024 2 5 2 1709640000000) ≤
            (JSDate.mk 2024 2 5 2 1709640000000).ms ∧
          (JSDate.mk 2024 2 5 2 1709640000000).ms <
            sundayStart (JSDate.mk 2024 2 5 2 1709640000000) + 7 * msPerDay) :=
  ⟨by decide, by decide,
    weekFilter_selects_sunday_window (fun t : ℤ => some t) [1709640000000, 0]
      (JSDate.mk 2024 2 5 2 1709640000000) (by decide) (by decide)⟩
